/-
Verification of the rewards / alerts core of the digital-banking dashboard
backend.

The Python source is embedded shallowly:

* machine floats are embedded as exact rationals (`ℚ`); Python's `round`
  (banker's rounding, i.e. round half to even) is embedded as `pyRound`;
* SQLAlchemy rows become Lean structures, tables become lists, and queries
  become `List.filter` / `List.find?` over those lists;
* `datetime` values are rationals counting days, `date` values are integers
  (day numbers); `datetime.now()` and its calendar decomposition
  (`.month`, `.year`, month start) are inputs of the embedding;
* Python truthiness tests on `Optional[int]` arguments (`if user_id:`,
  `if entity_id:`) are embedded by `pyTruthyInt`, which is false for both
  `None` and `0`;
* fallible Python code (the `try`/`except` in `calculate_points`, the
  HTTP endpoints) is embedded in `Except`.
-/
import Mathlib

namespace Banking

/-- Python `round` on a float: round half to even (banker's rounding). -/
def pyRound (q : ℚ) : ℤ :=
  if q - ⌊q⌋ < 1/2 then ⌊q⌋
  else if 1/2 < q - ⌊q⌋ then ⌊q⌋ + 1
  else if ⌊q⌋ % 2 = 0 then ⌊q⌋ else ⌊q⌋ + 1

/-- Python truthiness of an `Optional[int]`: `None` and `0` are falsy. -/
def pyTruthyInt : Option ℤ → Bool
  | none => false
  | some n => n != 0

/-- Python truthiness of an `Optional[float]`: `None` and `0.0` are falsy. -/
def pyTruthyQ : Option ℚ → Bool
  | none => false
  | some q => q != 0

/-- `datetime.date()` of a datetime measured in days: the day number. -/
def pyDate (t : ℚ) : ℤ := ⌊t⌋

/-- Python `str.lower()` (ASCII), written as a structural map over the
characters so that it evaluates on concrete strings. -/
def pyStrLower (s : String) : String := ⟨s.data.map Char.toLower⟩

theorem pyRound_int_add_half (n : ℤ) :
    pyRound ((n : ℚ) + 1/2) = if n % 2 = 0 then n else n + 1 := by
  have hfloor : ⌊(n : ℚ) + 1/2⌋ = n := by
    rw [Int.floor_eq_iff]
    refine ⟨by linarith, by linarith⟩
  unfold pyRound
  rw [hfloor]
  have hfrac : ¬((n : ℚ) + 1/2 - (n : ℚ) < 1/2) := by linarith
  have hfrac2 : ¬((1:ℚ)/2 < (n : ℚ) + 1/2 - (n : ℚ)) := by linarith
  rw [if_neg hfrac, if_neg hfrac2]

end Banking

namespace Banking.RewardService
/-
Embedding of
`modern-digital-banking-dashboard/backend/app/services/reward_service.py`
(class `RewardService`).  Float constants of the source become the exact
rationals they denote in decimal (e.g. `1.2` ↦ `12/10`).
-/

/-- `RewardTier` enum (`app/schemas/reward.py` / `app/models/reward.py`). -/
inductive RewardTier where
  | bronze
  | silver
  | gold
  | platinum
  | diamond
deriving DecidableEq

/-- One value of the `self.tiers` dict: point thresholds, multiplier,
benefits, display color. -/
structure TierInfo where
  min_points : ℤ
  max_points : Option ℤ
  multiplier : ℚ
  benefits : List String
  color : String
deriving DecidableEq

def bronzeInfo : TierInfo :=
  { min_points := 0, max_points := some 499, multiplier := 1,
    benefits := [("Basic tracking"), ("Email support")], color := ("#cd7f32") }

def silverInfo : TierInfo :=
  { min_points := 500, max_points := some 1999, multiplier := 11/10,
    benefits := [("Priority support"), ("Advanced analytics"), ("Custom categories")],
    color := ("#c0c0c0") }

def goldInfo : TierInfo :=
  { min_points := 2000, max_points := some 4999, multiplier := 125/100,
    benefits := [("All Silver benefits"), ("Early access to features"),
      ("Dedicated account manager")],
    color := ("#ffd700") }

def platinumInfo : TierInfo :=
  { min_points := 5000, max_points := some 9999, multiplier := 15/10,
    benefits := [("All Gold benefits"), ("Custom integrations"), ("API access"),
      ("White-label reports")],
    color := ("#e5e4e2") }

def diamondInfo : TierInfo :=
  { min_points := 10000, max_points := none, multiplier := 2,
    benefits := [("All Platinum benefits"), ("24/7 phone support"),
      ("Custom development"), ("Enterprise features")],
    color := ("#b9f2ff") }

/-- `self.tiers`: insertion-ordered dict from tier to its configuration. -/
def tiers : List (RewardTier × TierInfo) :=
  [(.bronze, bronzeInfo), (.silver, silverInfo), (.gold, goldInfo),
   (.platinum, platinumInfo), (.diamond, diamondInfo)]

/-- `self.tiers[t]` for a tier `t` (total dict lookup). -/
def tierInfoOf : RewardTier → TierInfo
  | .bronze => bronzeInfo
  | .silver => silverInfo
  | .gold => goldInfo
  | .platinum => platinumInfo
  | .diamond => diamondInfo

/-- `self.category_multipliers` (dict, string key → float multiplier). -/
def category_multipliers : List (String × ℚ) :=
  [(("utilities"), 1), (("rent"), 12/10), (("mortgage"), 12/10),
   (("credit_card"), 15/10), (("loan"), 13/10), (("insurance"), 11/10),
   (("subscription"), 8/10), (("education"), 14/10), (("medical"), 1),
   (("tax"), 1), (("other"), 1)]

/-- `self.base_points_per_dollar`. -/
def base_points_per_dollar : ℚ := 10

/-- `self.on_time_multiplier`. -/
def on_time_multiplier : ℚ := 15/10

/-- `self.streak_bonus` dict, already listed in the descending key order in
which `calculate_points` traverses it (`sorted(..., reverse=True)`). -/
def streak_bonus_desc : List (ℤ × ℚ) :=
  [(30, 15/10), (15, 13/10), (7, 12/10), (3, 11/10)]

/-- The `for streak, multiplier in sorted(self.streak_bonus.items(),
reverse=True)` loop with its `break`: first threshold `≤ streak_days`
wins, default `1.0`. -/
def streakMultiplier (streak_days : ℤ) : ℚ :=
  match streak_bonus_desc.find? (fun p => decide (p.1 ≤ streak_days)) with
  | some p => p.2
  | none => 1

/-- Body of the `try` block of `calculate_points` before rounding:
base points, category multiplier, on-time bonus, streak bonus. -/
def raw_points (amount : ℚ) (on_time_payment : Bool) (category : String)
    (streak_days : ℤ) : ℚ :=
  let base_points := amount * base_points_per_dollar
  let category_multiplier := ((category_multipliers.lookup (pyStrLower category)).getD 1)
  let points := base_points * category_multiplier
  let points := if on_time_payment then points * on_time_multiplier else points
  points * streakMultiplier streak_days

/-- `RewardService.calculate_points` on an amount that coerced to a float:
multiply out the bonuses, `round`, floor at 1. -/
def calculate_points (bill_amount : ℚ) (on_time_payment : Bool)
    (category : String) (streak_days : ℤ) : ℤ :=
  max 1 (pyRound (raw_points bill_amount on_time_payment category streak_days))

/-- A Python value passed as `bill_amount`: either something `float()`
coerces (embedded by the rational it coerces to) or something on which
`float()` raises (non-numeric string, `None`, ...). -/
inductive PyNum where
  | coercible (q : ℚ)
  | uncoercible
deriving DecidableEq

/-- `float(x)`, which raises on an uncoercible value. -/
def pyFloat : PyNum → Except Unit ℚ
  | .coercible q => .ok q
  | .uncoercible => .error ()

/-- `category.lower()`, which raises `AttributeError` when `category` is
not a string (e.g. `None`). -/
def pyLower : Option String → Except Unit String
  | some s => .ok (pyStrLower s)
  | none => .error ()

/-- `RewardService.calculate_points` with its `try`/`except`: the `try`
body coerces `bill_amount` and lowercases `category`; on any exception the
`except` branch recomputes `float(bill_amount)` for the fallback
`max(1, round(float(bill_amount) * self.base_points_per_dollar))` —
so an uncoercible `bill_amount` makes the fallback itself raise. -/
def calculate_points_full (bill_amount : PyNum) (on_time_payment : Bool)
    (category : Option String) (streak_days : ℤ) : Except Unit ℤ :=
  let attempt : Except Unit ℤ := do
    let amount ← pyFloat bill_amount
    let _ ← pyLower category
    pure (calculate_points amount on_time_payment
      (category.getD ("")) streak_days)
  match attempt with
  | .ok n => .ok n
  | .error _ =>
    match pyFloat bill_amount with
    | .ok q => .ok (max 1 (pyRound (q * base_points_per_dollar)))
    | .error _ => .error ()

/-- Condition of one `self.tiers` entry matching a point total in
`get_current_tier`: unbounded tier checks only `min_points`, bounded tier
checks `min_points <= total_points <= max_points`. -/
def tierMatches (info : TierInfo) (total_points : ℤ) : Prop :=
  match info.max_points with
  | none => info.min_points ≤ total_points
  | some m => info.min_points ≤ total_points ∧ total_points ≤ m

instance (info : TierInfo) (t : ℤ) : Decidable (tierMatches info t) := by
  unfold tierMatches
  cases info.max_points <;> infer_instance

/-- The lookup loop of `get_current_tier`: first matching entry. -/
def findTier : List (RewardTier × TierInfo) → ℤ → Option RewardTier
  | [], _ => none
  | (name, info) :: rest, t =>
    if tierMatches info t then some name else findTier rest t

/-- `RewardService.get_current_tier`, with its defensive Bronze fallback. -/
def get_current_tier (total_points : ℤ) : RewardTier :=
  (findTier tiers total_points).getD .bronze

/-- `list(self.tiers.keys())` in `get_next_tier`. -/
def tier_names : List RewardTier := tiers.map Prod.fst

/-- `RewardService.get_next_tier`: the entry after the current tier in the
key list, `None` at the top. -/
def get_next_tier (total_points : ℤ) : Option RewardTier :=
  let current_tier := get_current_tier total_points
  let current_index := tier_names.indexOf current_tier
  if h : current_index + 1 < tier_names.length then
    some (tier_names.get ⟨current_index + 1, h⟩)
  else
    none

/-- `RewardService.get_points_to_next_tier`:
`max(0, next_tier_min - total_points)`, `None` with no next tier. -/
def get_points_to_next_tier (total_points : ℤ) : Option ℤ :=
  match get_next_tier total_points with
  | none => none
  | some next_tier => some (max 0 ((tierInfoOf next_tier).min_points - total_points))

/-- Interval characterization of `get_current_tier` (including negative
inputs, which fall through to the Bronze fallback). -/
theorem get_current_tier_eq (t : ℤ) :
    get_current_tier t =
      if 0 ≤ t ∧ t < 500 then .bronze
      else if 500 ≤ t ∧ t < 2000 then .silver
      else if 2000 ≤ t ∧ t < 5000 then .gold
      else if 5000 ≤ t ∧ t < 10000 then .platinum
      else if 10000 ≤ t then .diamond
      else .bronze := by
  simp only [get_current_tier, findTier, tiers, tierMatches, bronzeInfo, silverInfo,
    goldInfo, platinumInfo, diamondInfo]
  split_ifs <;> simp_all <;> omega

/-- Interval characterization of `get_next_tier`. -/
theorem get_next_tier_eq (t : ℤ) :
    get_next_tier t =
      if t < 500 then some .silver
      else if t < 2000 then some .gold
      else if t < 5000 then some .platinum
      else if t < 10000 then some .diamond
      else none := by
  have h := get_current_tier_eq t
  unfold get_next_tier
  split_ifs at h ⊢ <;> (try omega) <;> rw [h] <;> rfl

/-- `pyRound` on an integer value is that integer. -/
theorem pyRound_intCast (n : ℤ) : pyRound (n : ℚ) = n := by
  unfold pyRound
  rw [Int.floor_intCast]
  have h : (n : ℚ) - (n : ℚ) < 1/2 := by norm_num
  rw [if_pos h]

/-- Helper evaluations of the lookup tables at the concrete categories used
in the claims. -/
theorem lookup_rent : (category_multipliers.lookup (pyStrLower ("rent"))).getD 1 = 12/10 := by
  have h : pyStrLower ("rent") = ("rent") := by decide
  rw [h]
  rfl

theorem lookup_other : (category_multipliers.lookup (pyStrLower ("other"))).getD 1 = 1 := by
  have h : pyStrLower ("other") = ("other") := by decide
  rw [h]
  rfl

theorem streakMultiplier_ten : streakMultiplier 10 = 12/10 := by rfl

theorem streakMultiplier_zero : streakMultiplier 0 = 1 := by rfl

/-- The raw (pre-rounding) value of `calculate_points` at amount `0.25`,
no on-time bonus, category `other`, no streak: exactly `2.5`. -/
theorem raw_points_quarter : raw_points (1/4) false ("other") 0 = (2:ℤ) + 1/2 := by
  unfold raw_points
  rw [lookup_other, streakMultiplier_zero]
  simp only [Bool.false_eq_true, if_false, base_points_per_dollar]
  norm_num

/-- C5 (counterexample): the final rounding of `calculate_points` is not
half-up.  At `bill_amount = 0.25`, `on_time_payment = False`,
`category = "other"`, `streak_days = 0` the raw value is exactly
`2 + 0.5`, yet the function returns `2`, not `2 + 1`: Python `round`
rounds ties to the nearest even integer. -/
theorem calculate_points_not_half_up :
    raw_points (1/4) false ("other") 0 = (2:ℤ) + 1/2
    ∧ calculate_points (1/4) false ("other") 0 = 2
    ∧ calculate_points (1/4) false ("other") 0 ≠ 2 + 1 := by
  have h2 : calculate_points (1/4) false ("other") 0 = 2 := by
    unfold calculate_points
    rw [raw_points_quarter, pyRound_int_add_half]
    norm_num
  exact ⟨raw_points_quarter, h2, by rw [h2]; omega⟩

/-- C5 (amended): for **every** input — any amount (zero and negative
included), category, on-time flag and streak — `calculate_points` returns
an integer `≥ 1` (the floor at 1); and the rounding before that floor is
Python banker's rounding, not half-up: a raw value of exactly `n + 0.5`
yields `n` for even `n` and `n + 1` for odd `n` (before the floor). -/
theorem calculate_points_rounding (amount : ℚ) (on_time : Bool)
    (category : String) (streak : ℤ) :
    1 ≤ calculate_points amount on_time category streak
    ∧ ∀ n : ℤ, raw_points amount on_time category streak = n + 1/2 →
        calculate_points amount on_time category streak
          = max 1 (if n % 2 = 0 then n else n + 1) := by
  constructor
  · exact le_max_left _ _
  · intro n h
    unfold calculate_points
    rw [h, pyRound_int_add_half]

/-- C5 (witness): the rounding theorem applied at a concrete input that is
an exact tie, discharging the inner hypothesis. -/
theorem calculate_points_rounding_witness :
    1 ≤ calculate_points (1/4) false ("other") 0
    ∧ calculate_points (1/4) false ("other") 0
        = max 1 (if (2:ℤ) % 2 = 0 then 2 else 2 + 1) :=
  ⟨(calculate_points_rounding (1/4) false ("other") 0).1,
   (calculate_points_rounding (1/4) false ("other") 0).2 2 raw_points_quarter⟩

/-- C6: `calculate_points(100.00, on_time=True, category="rent",
streak_days=10)` is exactly 2160, via the ordered steps
base `100 x 10 = 1000`, category rent `x 1.2 = 1200`, on-time
`x 1.5 = 1800`, streak threshold 7 (the largest threshold `<= 10`)
`x 1.2 = 2160`. -/
theorem calculate_points_example_2160 :
    (100:ℚ) * base_points_per_dollar = 1000
    ∧ (category_multipliers.lookup (pyStrLower ("rent"))).getD 1 = 12/10
    ∧ (1000:ℚ) * (12/10) = 1200
    ∧ on_time_multiplier = 15/10
    ∧ (1200:ℚ) * (15/10) = 1800
    ∧ streak_bonus_desc.find? (fun p => decide (p.1 ≤ 10)) = some (7, 12/10)
    ∧ streakMultiplier 10 = 12/10
    ∧ (1800:ℚ) * (12/10) = 2160
    ∧ raw_points 100 true ("rent") 10 = 2160
    ∧ calculate_points 100 true ("rent") 10 = 2160 := by
  have hraw : raw_points 100 true ("rent") 10 = 2160 := by
    unfold raw_points
    rw [lookup_rent, streakMultiplier_ten]
    simp only [if_true, base_points_per_dollar, on_time_multiplier]
    norm_num
  refine ⟨by norm_num [base_points_per_dollar], lookup_rent, by norm_num,
    rfl, by norm_num, by rfl, streakMultiplier_ten, by norm_num, hraw, ?_⟩
  unfold calculate_points
  rw [hraw]
  have h : pyRound ((2160:ℤ) : ℚ) = 2160 := pyRound_intCast 2160
  norm_num at h
  rw [h]
  omega

/-- C4: `calculate_points` with an uncoercible `bill_amount` raises to its
caller — the `except` fallback calls `float(bill_amount)` again and the
same exception escapes — while a calculation failure that is not the
amount coercion (here: `category = None`, an `AttributeError` from
`.lower()`) does return the fallback `max(1, round(amount * 10))`. -/
theorem calculate_points_full_uncoercible_raises :
    calculate_points_full .uncoercible true (some ("other")) 0 = .error ()
    ∧ calculate_points_full (.coercible 100) true none 0 = .ok 1000
    ∧ ∀ n : ℤ, calculate_points_full .uncoercible true (some ("other")) 0 ≠ .ok n := by
  have h1 : calculate_points_full .uncoercible true (some ("other")) 0 = .error () := rfl
  have h2 : calculate_points_full (.coercible 100) true none 0
      = .ok (max 1 (pyRound (100 * base_points_per_dollar))) := rfl
  have h3 : pyRound ((100:ℚ) * base_points_per_dollar) = 1000 := by
    have h := pyRound_intCast 1000
    norm_num [base_points_per_dollar] at h ⊢
    convert h using 2
  refine ⟨h1, ?_, ?_⟩
  · rw [h2, h3]
    norm_num
  · intro n
    rw [h1]
    intro hc
    exact Except.noConfusion hc

/-- C7: the five tier ranges partition the non-negative integers — every
`total_points ≥ 0` is matched by exactly one entry of `self.tiers` — and
`get_current_tier 0 = BRONZE`, `get_current_tier 10000 = DIAMOND`. -/
theorem tiers_partition (t : ℤ) (h : 0 ≤ t) :
    tiers.countP (fun p => decide (tierMatches p.2 t)) = 1
    ∧ get_current_tier 0 = .bronze
    ∧ get_current_tier 10000 = .diamond := by
  refine ⟨?_, rfl, rfl⟩
  simp only [tiers, List.countP_cons, List.countP_nil, tierMatches,
    bronzeInfo, silverInfo, goldInfo, platinumInfo, diamondInfo,
    decide_eq_true_eq]
  split_ifs <;> simp_all <;> omega

/-- C7 (witness): the partition property at `total_points = 750`. -/
theorem tiers_partition_witness :
    (0:ℤ) ≤ 750
    ∧ (tiers.countP (fun p => decide (tierMatches p.2 750)) = 1
       ∧ get_current_tier 0 = .bronze
       ∧ get_current_tier 10000 = .diamond) :=
  ⟨by omega, tiers_partition 750 (by omega)⟩

/-- C8: whenever `get_next_tier t` exists, `get_points_to_next_tier t`
is exactly `next.min_points - t` (so adding `t` gives back the next
tier's `min_points`) and the floor-at-0 clamp does not trigger. -/
theorem points_to_next_tier_exact (t : ℤ) (nt : RewardTier)
    (h : get_next_tier t = some nt) :
    get_points_to_next_tier t = some ((tierInfoOf nt).min_points - t)
    ∧ ((tierInfoOf nt).min_points - t) + t = (tierInfoOf nt).min_points
    ∧ 0 ≤ (tierInfoOf nt).min_points - t := by
  unfold get_points_to_next_tier
  rw [h]
  rw [get_next_tier_eq] at h
  split_ifs at h <;> injection h with h2 <;> subst h2 <;>
    simp only [tierInfoOf, silverInfo, goldInfo, platinumInfo, diamondInfo] <;>
    exact ⟨by rw [max_eq_right (by omega)], by omega, by omega⟩

/-- C8 (witness): at 1750 points the next tier is GOLD and exactly 250
points are missing. -/
theorem points_to_next_tier_exact_witness :
    get_points_to_next_tier 1750 = some ((tierInfoOf .gold).min_points - 1750)
    ∧ ((tierInfoOf .gold).min_points - 1750) + 1750 = (tierInfoOf .gold).min_points
    ∧ 0 ≤ (tierInfoOf .gold).min_points - 1750 :=
  points_to_next_tier_exact 1750 .gold (by rfl)

/-- C10: for negative `total_points` no entry of `self.tiers` matches, the
lookup loop returns nothing and the defensive Bronze fallback is taken, so
`get_next_tier` is SILVER and `get_points_to_next_tier` is `500 - t`. -/
theorem negative_points_bronze_fallback (t : ℤ) (h : t < 0) :
    (∀ p ∈ tiers, ¬ tierMatches p.2 t)
    ∧ findTier tiers t = none
    ∧ get_current_tier t = .bronze
    ∧ get_next_tier t = some .silver
    ∧ get_points_to_next_tier t = some (500 - t) := by
  refine ⟨?_, ?_, ?_, ?_, ?_⟩
  · intro p hp
    fin_cases hp <;> simp [tierMatches, bronzeInfo, silverInfo, goldInfo,
      platinumInfo, diamondInfo] <;> omega
  · simp only [findTier, tiers, tierMatches, bronzeInfo, silverInfo, goldInfo,
      platinumInfo, diamondInfo]
    split_ifs <;> first | rfl | omega
  · rw [get_current_tier_eq]
    split_ifs <;> first | rfl | omega
  · rw [get_next_tier_eq]
    split_ifs <;> first | rfl | omega
  · unfold get_points_to_next_tier
    rw [get_next_tier_eq]
    split_ifs <;> first
      | omega
      | (simp only [tierInfoOf, silverInfo]
         rw [max_eq_right (by omega)])

/-- C10 (witness): the fallback behaviour at `total_points = -5`. -/
theorem negative_points_bronze_fallback_witness :
    (∀ p ∈ tiers, ¬ tierMatches p.2 (-5))
    ∧ findTier tiers (-5) = none
    ∧ get_current_tier (-5) = .bronze
    ∧ get_next_tier (-5) = some .silver
    ∧ get_points_to_next_tier (-5) = some (500 - (-5)) :=
  negative_points_bronze_fallback (-5) (by omega)

end Banking.RewardService

namespace Banking.BillsApi
/-
Embedding of the two reward-recording code paths:
`backend/app/api/v1/bills.py` (`mark_bill_as_paid`) and
`modern-digital-banking-dashboard/backend/app/api/v1/rewards.py`
(`process_bill_payment_reward`), over the `Bill` model of
`backend/app/models/bill.py` and the `Reward` model of
`modern-digital-banking-dashboard/backend/app/models/reward.py`.
HTTP failures (404/400) are `.error ()`.
-/

/-- A row of the `bills` table (the fields these endpoints read). -/
structure BillRec where
  id : ℤ
  user_id : ℤ
  name : String
  amount_usd : ℚ
  due_date : ℤ
  is_paid : Bool
  paid_date : Option ℤ
  category : String
deriving DecidableEq

/-- A row of the `rewards` table. -/
structure RewardRec where
  id : ℤ
  user_id : ℤ
  bill_id : Option ℤ
  bill_amount : ℚ
  points : ℤ
  category : String
  on_time_payment : Bool
  description : String
deriving DecidableEq

/-- Database state these endpoints touch.  `user_points` embeds the
per-user running points total updated by `user_crud.update_points`. -/
structure BillsDB where
  bills : List BillRec
  rewards : List RewardRec
  next_reward_id : ℤ
  user_points : List (ℤ × ℤ)
deriving DecidableEq

/-- `Bill.is_overdue` property (`app/models/bill.py`): unpaid and past the
due date (`due_date` is a non-nullable column). -/
def is_overdue (b : BillRec) (today : ℤ) : Bool :=
  !b.is_paid && decide (b.due_date < today)

/-- `bill_crud.get`: primary-key lookup. -/
def bill_get (bills : List BillRec) (id : ℤ) : Option BillRec :=
  bills.find? (fun b => b.id == id)

/-- `bill_crud.mark_as_paid`: set `is_paid` and `paid_date`. -/
def mark_as_paid_row (b : BillRec) (today : ℤ) : BillRec :=
  { b with is_paid := true, paid_date := some today }

/-- `user_crud.update_points`.  Modelled from the spec: `crud/user.py`
in `src/` has no `update_points`, only its caller exists; the spec's
reward ledger keeps a per-user points total, so the embedding adds
`points_to_add` to the caller's stored total. -/
def update_points (pts : List (ℤ × ℤ)) (user_id points_to_add : ℤ) : List (ℤ × ℤ) :=
  pts.map (fun p => if p.1 == user_id then (p.1, p.2 + points_to_add) else p)

/-- `POST /bills/\x7bbill_id\x7d/pay` (`mark_bill_as_paid`): 404 when the
bill is missing or foreign; early return when already paid; otherwise mark
paid, and create a reward only when none exists for this bill id.  Note
that `bill.is_overdue` is evaluated on the already-mutated (paid) row, so
`on_time_payment` is computed from the updated bill. -/
def mark_bill_as_paid (db : BillsDB) (today : ℤ) (current_user : ℤ)
    (bill_id : ℤ) : Except Unit (BillsDB × BillRec) :=
  match bill_get db.bills bill_id with
  | none => .error ()
  | some bill =>
    if bill.user_id != current_user then .error ()
    else if bill.is_paid then .ok (db, bill)
    else
      let updated_bill := mark_as_paid_row bill today
      let db1 : BillsDB :=
        { db with
          bills := db.bills.map (fun b =>
            if b.id == bill.id then mark_as_paid_row b today else b) }
      match db1.rewards.find? (fun r => r.bill_id == some bill.id) with
      | some _ => .ok (db1, updated_bill)
      | none =>
        let on_time := !(is_overdue updated_bill today)
        let points := Banking.RewardService.calculate_points
          bill.amount_usd on_time bill.category 0
        let reward : RewardRec :=
          { id := db1.next_reward_id, user_id := current_user,
            bill_id := some bill.id, bill_amount := bill.amount_usd,
            points := points, category := bill.category,
            on_time_payment := on_time,
            description := ("Reward for paying bill: ") ++ bill.name }
        .ok ({ db1 with
                 rewards := db1.rewards ++ [reward]
                 next_reward_id := db1.next_reward_id + 1 }, updated_bill)

/-- `POST /rewards/process-bill-payment/\x7bbill_id\x7d`
(`process_bill_payment_reward`): 404/400 when the bill is missing or
foreign; otherwise compute points and insert a reward row with **no**
check for an existing reward for this bill, then update the user's points
total.  Returns the awarded points. -/
def process_bill_payment_reward (db : BillsDB) (current_user : ℤ)
    (bill_id : ℤ) (on_time_payment : Bool) : Except Unit (BillsDB × ℤ) :=
  match bill_get db.bills bill_id with
  | none => .error ()
  | some bill =>
    if bill.user_id != current_user then .error ()
    else
      let points := Banking.RewardService.calculate_points
        bill.amount_usd on_time_payment bill.category 0
      let reward : RewardRec :=
        { id := db.next_reward_id, user_id := current_user,
          bill_id := some bill_id, bill_amount := bill.amount_usd,
          points := points, category := bill.category,
          on_time_payment := on_time_payment,
          description := ("Reward for bill payment: ") ++ bill.name }
      let db1 : BillsDB :=
        { db with
            rewards := db.rewards ++ [reward]
            next_reward_id := db.next_reward_id + 1 }
      let db2 : BillsDB :=
        { db1 with user_points := update_points db1.user_points current_user points }
      .ok (db2, points)

/-- Number of reward rows recorded for one bill id. -/
def rewardCountForBill (db : BillsDB) (bid : ℤ) : ℕ :=
  db.rewards.countP (fun r => r.bill_id == some bid)

/-- A one-bill database: user 1 owns unpaid bill 1, no rewards yet. -/
def sampleBill : BillRec :=
  { id := 1
    user_id := 1
    name := ("Electricity")
    amount_usd := 10
    due_date := 200
    is_paid := false
    paid_date := none
    category := ("other") }

def sampleDb : BillsDB :=
  { bills := [sampleBill]
    rewards := []
    next_reward_id := 1
    user_points := [(1, 0)] }

/-- The reward row `mark_bill_as_paid` creates for `sampleBill`. -/
def sampleReward : RewardRec :=
  { id := 1
    user_id := 1
    bill_id := some 1
    bill_amount := 10
    points := Banking.RewardService.calculate_points 10 true ("other") 0
    category := ("other")
    on_time_payment := true
    description := ("Reward for paying bill: ") ++ ("Electricity") }

/-- `sampleDb` after `mark_bill_as_paid` on bill 1. -/
def sampleMarkedDb : BillsDB :=
  { bills := [mark_as_paid_row sampleBill 100]
    rewards := [sampleReward]
    next_reward_id := 2
    user_points := [(1, 0)] }

/-- `bill_crud.get` over a row update that preserves primary keys. -/
theorem bill_get_map (bills : List BillRec) (k : ℤ) (f : BillRec → BillRec)
    (hf : ∀ b, (f b).id = b.id) :
    bill_get (bills.map f) k = (bill_get bills k).map f := by
  induction bills with
  | nil => rfl
  | cons b bs ih =>
    simp only [bill_get, List.map_cons, List.find?] at *
    rw [hf b]
    cases h : (b.id == k) with
    | true => rfl
    | false => exact ih

/-- C1 (counterexample): submitting `process_bill_payment_reward` twice
for the same bill id inserts two `Reward` rows — the endpoint has no
duplicate check. -/
theorem process_bill_payment_reward_duplicates :
    (process_bill_payment_reward sampleDb 1 1 true).bind
      (fun r => (process_bill_payment_reward r.1 1 1 true).map
        (fun r2 => rewardCountForBill r2.1 1)) = .ok 2
    ∧ ((2:ℕ) ≠ 1) := by
  exact ⟨rfl, by omega⟩

/-- C1 (amended): the `mark_bill_as_paid` path is idempotent — a
successful call either leaves every bill's reward count unchanged or
creates the single first reward for the paid bill, and repeating the call
returns the same (already paid) bill with the database unchanged.  The
`process_bill_payment_reward` endpoint, by contrast, performs no
duplicate check and inserts a new `Reward` row on every invocation. -/
theorem mark_bill_as_paid_at_most_one_reward (db : BillsDB) (today u bid : ℤ)
    (db' : BillsDB) (b' : BillRec)
    (h : mark_bill_as_paid db today u bid = .ok (db', b')) :
    (∀ x : ℤ, rewardCountForBill db' x = rewardCountForBill db x
       ∨ (x = bid ∧ rewardCountForBill db x = 0 ∧ rewardCountForBill db' x = 1))
    ∧ mark_bill_as_paid db' today u bid = .ok (db', b') := by
  cases hfind : bill_get db.bills bid with
  | none => simp [mark_bill_as_paid, hfind] at h
  | some bill =>
    have hbid : bill.id = bid := by
      have := List.find?_some hfind
      simpa using this
    have hidpres : ∀ b : BillRec,
        ((if b.id == bill.id then mark_as_paid_row b today else b) : BillRec).id = b.id := by
      intro b
      by_cases hb : (b.id == bill.id) = true
      · simp [hb, mark_as_paid_row]
      · simp [hb]
    have hrow_uid : (mark_as_paid_row bill today).user_id = bill.user_id := rfl
    have hrow_paid : (mark_as_paid_row bill today).is_paid = true := rfl
    cases hu : (bill.user_id != u) with
    | true => simp [mark_bill_as_paid, hfind, hu] at h
    | false =>
      cases hpaid : bill.is_paid with
      | true =>
        simp only [mark_bill_as_paid, hfind, hu, hpaid, Bool.false_eq_true,
          if_false, if_true] at h
        injection h with h1
        injection h1 with hdb hb
        subst hdb; subst hb
        refine ⟨fun x => Or.inl rfl, ?_⟩
        simp only [mark_bill_as_paid, hfind, hu, hpaid, Bool.false_eq_true,
          if_false, if_true]
      | false =>
        have hget' : bill_get (db.bills.map (fun b =>
            if b.id == bill.id then mark_as_paid_row b today else b)) bid
            = some (mark_as_paid_row bill today) := by
          rw [bill_get_map _ _ _ hidpres, hfind]
          simp [mark_as_paid_row]
        cases hex : db.rewards.find? (fun r => r.bill_id == some bill.id) with
        | some r0 =>
          simp only [mark_bill_as_paid, hfind, hu, hpaid, hex, Bool.false_eq_true,
            if_false, if_true] at h
          injection h with h1
          injection h1 with hdb hb
          subst hdb; subst hb
          refine ⟨fun x => Or.inl rfl, ?_⟩
          simp only [mark_bill_as_paid, hget', hrow_uid, hrow_paid, hu,
            Bool.false_eq_true, if_false, if_true]
        | none =>
          simp only [mark_bill_as_paid, hfind, hu, hpaid, hex, Bool.false_eq_true,
            if_false, if_true] at h
          injection h with h1
          injection h1 with hdb hb
          subst hdb; subst hb
          constructor
          · intro x
            by_cases hx : x = bid
            · have hzero : rewardCountForBill db bid = 0 := by
                rw [rewardCountForBill, List.countP_eq_zero]
                intro r hr
                have := List.find?_eq_none.mp hex r hr
                rw [hbid] at this
                simpa using this
              refine Or.inr ⟨hx, ?_, ?_⟩
              · rw [hx]
                exact hzero
              · rw [hx]
                simp only [rewardCountForBill, List.countP_append]
                rw [rewardCountForBill] at hzero
                rw [hzero, hbid]
                simp
            · left
              simp only [rewardCountForBill, List.countP_append]
              have hne : ((some bill.id == some x) : Bool) = false := by
                rw [hbid]
                simp only [beq_eq_false_iff_ne, ne_eq, Option.some.injEq]
                omega
              simp [hne]
          · simp only [mark_bill_as_paid, hget', hrow_uid, hrow_paid, hu,
              Bool.false_eq_true, if_false, if_true]

/-- C1 (witness): marking the sample bill paid creates exactly one reward
and a second call is a no-op. -/
theorem mark_bill_as_paid_at_most_one_reward_witness :
    (∀ x : ℤ, rewardCountForBill sampleMarkedDb x = rewardCountForBill sampleDb x
       ∨ (x = 1 ∧ rewardCountForBill sampleDb x = 0
          ∧ rewardCountForBill sampleMarkedDb x = 1))
    ∧ mark_bill_as_paid sampleMarkedDb 100 1 1
        = .ok (sampleMarkedDb, mark_as_paid_row sampleBill 100) :=
  mark_bill_as_paid_at_most_one_reward sampleDb 100 1 1 sampleMarkedDb
    (mark_as_paid_row sampleBill 100) (by rfl)

end Banking.BillsApi

namespace Banking.Alerts
/-
Embedding of the alert data model and of
`modern-digital-banking-dashboard/backend/app/crud/alert.py`
(`CRUDAlert`) plus `services/alert_service.py` (`AlertService`).

The enums are modelled from the spec's data model (section 3): the
`app.models.alert` module imported by `services/alert_service.py` is
absent from `src/` (the nearest `backend/app/models/alert.py` belongs to
the sibling application and lacks the `BUDGET_NEARING_LIMIT` member that
`alert_service.py` uses — the inconsistency the spec flags as an open
question).  `title`, `message` and the JSON payloads (`entity_data`,
`data`) are opaque display data never read back by the embedded logic and
are not modelled.
-/

/-- `AlertType` enum.  Modelled from the spec: fixed enumeration including
`budget_nearing_limit`. -/
inductive AlertType where
  | budget_exceeded
  | budget_nearing_limit
  | large_transaction
  | unusual_spending
  | low_balance
  | high_balance
  | income_received
  | bill_due
  | subscription_renewal
  | savings_goal
  | cash_flow_warning
  | system
  | info
  | warning
  | critical
deriving DecidableEq

/-- `AlertStatus` enum. -/
inductive AlertStatus where
  | active
  | resolved
  | dismissed
  | archived
deriving DecidableEq

/-- `EntityType` enum. -/
inductive EntityType where
  | transaction
  | account
  | budget
  | category
  | bill
  | goal
  | user
deriving DecidableEq

/-- A row of the `alerts` table. -/
structure Alert where
  id : ℤ
  user_id : ℤ
  alert_type : AlertType
  severity : String
  entity_type : Option EntityType
  entity_id : Option ℤ
  amount : Option ℚ
  threshold : Option ℚ
  is_actionable : Bool
  expires_at : Option ℚ
  status : AlertStatus
  is_read : Bool
  created_at : ℚ
  acknowledged_at : Option ℚ
  resolved_at : Option ℚ

/-- `CRUDBase.get`.  Modelled from the spec: `app/crud/base.py` is absent
from `src/`; `get` is the primary-key lookup used by
`mark_as_read`/`mark_as_resolved`/`dismiss` (`alert_id` is the primary
key, so rows are assumed id-unique where a theorem needs it). -/
def get (db : List Alert) (id : ℤ) : Option Alert :=
  db.find? (fun a => a.id == id)

/-- The filter row predicate of `CRUDAlert.get_by_criteria`: mandatory
user and type match; entity filters only when the Python value is truthy
(`entity_id = 0` or `None` skips the filter); `created_at >= created_after`
when given; `status == ACTIVE` when `active_only`. -/
def criteriaPred (user_id : ℤ) (alert_type : AlertType)
    (entity_type : Option EntityType) (entity_id : Option ℤ)
    (created_after : Option ℚ) (active_only : Bool) (a : Alert) : Bool :=
  a.user_id == user_id && a.alert_type == alert_type
  && (match entity_type with
      | none => true
      | some et => a.entity_type == some et)
  && (if pyTruthyInt entity_id then a.entity_id == entity_id else true)
  && (match created_after with
      | none => true
      | some ca => decide (ca ≤ a.created_at))
  && (!active_only || a.status == AlertStatus.active)

/-- `CRUDAlert.get_by_criteria` (`.first()` over the matching rows). -/
def get_by_criteria (db : List Alert) (user_id : ℤ) (alert_type : AlertType)
    (entity_type : Option EntityType) (entity_id : Option ℤ)
    (created_after : Option ℚ) (active_only : Bool) : Option Alert :=
  db.find? (criteriaPred user_id alert_type entity_type entity_id
    created_after active_only)

/-- `CRUDAlert.mark_as_read`: look the alert up by id, refuse a foreign
alert when the caller passed a truthy `user_id`, then set `is_read` and
`acknowledged_at` (the status is untouched). -/
def mark_as_read (db : List Alert) (alert_id : ℤ) (user_id : Option ℤ)
    (now : ℚ) : Option Alert × List Alert :=
  match get db alert_id with
  | none => (none, db)
  | some alert =>
    if pyTruthyInt user_id && (some alert.user_id != user_id) then (none, db)
    else
      let a' := { alert with is_read := true, acknowledged_at := some now }
      (some a', db.map (fun b => if b.id == alert.id then a' else b))

/-- `CRUDAlert.mark_as_resolved`: same lookup and ownership test, then set
`status = RESOLVED`, `resolved_at`, `is_read = True` — unconditionally,
whatever the current status. -/
def mark_as_resolved (db : List Alert) (alert_id : ℤ) (user_id : Option ℤ)
    (now : ℚ) : Option Alert × List Alert :=
  match get db alert_id with
  | none => (none, db)
  | some alert =>
    if pyTruthyInt user_id && (some alert.user_id != user_id) then (none, db)
    else
      let a' := { alert with
                    status := AlertStatus.resolved
                    resolved_at := some now
                    is_read := true }
      (some a', db.map (fun b => if b.id == alert.id then a' else b))

/-- `CRUDAlert.dismiss`: same lookup and ownership test, then set
`status = DISMISSED`, `is_read = True` — unconditionally. -/
def dismiss (db : List Alert) (alert_id : ℤ) (user_id : Option ℤ) :
    Option Alert × List Alert :=
  match get db alert_id with
  | none => (none, db)
  | some alert =>
    if pyTruthyInt user_id && (some alert.user_id != user_id) then (none, db)
    else
      let a' := { alert with status := AlertStatus.dismissed, is_read := true }
      (some a', db.map (fun b => if b.id == alert.id then a' else b))

/-- Row predicate of the `cleanup_expired` query: expired
(`expires_at <= now`, `NULL` excluded), `ACTIVE`, and the user filter when
truthy. -/
def expiredPred (user_id : Option ℤ) (now : ℚ) (a : Alert) : Bool :=
  (match a.expires_at with
   | none => false
   | some e => decide (e ≤ now))
  && a.status == AlertStatus.active
  && (if pyTruthyInt user_id then some a.user_id == user_id else true)

/-- `CRUDAlert.cleanup_expired`: select up to `batch_size` expired ACTIVE
alerts, then archive every row whose id is in the selected batch and
force `is_read`; returns the number of updated rows. -/
def cleanup_expired (db : List Alert) (user_id : Option ℤ)
    (batch_size : ℕ) (now : ℚ) : ℕ × List Alert :=
  let expired := (db.filter (expiredPred user_id now)).take batch_size
  let alert_ids := expired.map Alert.id
  let db' := db.map (fun a =>
    if alert_ids.contains a.id
    then { a with status := AlertStatus.archived, is_read := true }
    else a)
  (db.countP (fun a => alert_ids.contains a.id), db')

/-- `AlertService.cleanup_old_alerts`: archive the caller's ACTIVE alerts
created before `now - days_old` and force `is_read`; returns the number of
updated rows. -/
def cleanup_old_alerts (db : List Alert) (service_user_id : ℤ)
    (days_old : ℤ) (now : ℚ) : ℕ × List Alert :=
  let cutoff := now - days_old
  let oldPred := fun (a : Alert) =>
    a.user_id == service_user_id && decide (a.created_at < cutoff)
      && a.status == AlertStatus.active
  (db.countP oldPred,
   db.map (fun a =>
     if oldPred a
     then { a with status := AlertStatus.archived, is_read := true }
     else a))

/-- Rows zipped with their images under a row update. -/
theorem zip_map_snd {α : Type} (l : List α) (f : α → α) :
    ∀ p ∈ l.zip (l.map f), p.2 = f p.1 := by
  induction l with
  | nil => intro p hp; simp at hp
  | cons a l ih =>
    intro p hp
    simp only [List.map_cons, List.zip_cons_cons, List.mem_cons] at hp
    cases hp with
    | inl h => rw [h]
    | inr h => exact ih p h

theorem id_unique (db : List Alert) (hids : (db.map Alert.id).Nodup)
    (a b : Alert) (ha : a ∈ db) (hb : b ∈ db) (h : a.id = b.id) : a = b :=
  List.inj_on_of_nodup_map hids ha hb h

theorem terminal_status_behaviour (db : List Alert) (aid : ℤ) (uid : Option ℤ)
    (suid days_old : ℤ) (bs : ℕ) (now : ℚ)
    (hids : (db.map Alert.id).Nodup) :
    ((mark_as_read db aid uid now).2.map Alert.status = db.map Alert.status)
    ∧ (∀ p ∈ db.zip (cleanup_expired db uid bs now).2,
        p.1.status ≠ .active → p.2.status = p.1.status)
    ∧ (∀ p ∈ db.zip (cleanup_old_alerts db suid days_old now).2,
        p.1.status ≠ .active → p.2.status = p.1.status)
    ∧ (∀ a', (mark_as_resolved db aid uid now).1 = some a' → a'.status = .resolved)
    ∧ (∀ a', (dismiss db aid uid).1 = some a' → a'.status = .dismissed) := by
  refine ⟨?_, ?_, ?_, ?_, ?_⟩
  · cases hget : get db aid with
    | none => simp [mark_as_read, hget]
    | some alert =>
      have hmem : alert ∈ db := List.mem_of_find?_eq_some hget
      by_cases hauth : (pyTruthyInt uid && (some alert.user_id != uid)) = true
      · simp [mark_as_read, hget, hauth]
      · simp only [mark_as_read, hget, hauth, Bool.false_eq_true, if_false,
          List.map_map]
        apply List.map_congr_left
        intro b hb
        by_cases hbi : (b.id == alert.id) = true
        · have hbeq : b = alert :=
            id_unique db hids b alert hb hmem (by simpa using hbi)
          simp [Function.comp, hbi, hbeq]
        · simp [Function.comp, hbi]
  · intro p hp hterm
    have hp2 := zip_map_snd db _ p hp
    have hp1 : p.1 ∈ db := (List.of_mem_zip hp).1
    rw [hp2]
    by_cases hc : ((((db.filter (expiredPred uid now)).take bs).map Alert.id).contains p.1.id) = true
    · exfalso
      rw [List.contains_eq_any_beq] at hc
      simp only [List.any_eq_true, List.mem_map] at hc
      obtain ⟨i, ⟨e, he, hei⟩, hbeq⟩ := hc
      have hedb : e ∈ db := List.mem_of_mem_filter (List.mem_of_mem_take he)
      have hact : e.status = .active := by
        have := List.of_mem_filter (List.mem_of_mem_take he)
        simp only [expiredPred, Bool.and_eq_true, beq_iff_eq] at this
        exact this.1.2
      have hip : p.1.id = i := by simpa using hbeq
      have : e = p.1 := by
        apply id_unique db hids e p.1 hedb hp1
        rw [hei, ← hip]
      rw [this] at hact
      exact hterm hact
    · rw [if_neg hc]
  · intro p hp hterm
    have hp2 := zip_map_snd db _ p hp
    rw [hp2]
    by_cases hc : (p.1.user_id == suid && decide (p.1.created_at < now - days_old)
        && p.1.status == AlertStatus.active) = true
    · exfalso
      simp only [Bool.and_eq_true, beq_iff_eq] at hc
      exact hterm hc.2
    · rw [if_neg hc]
  · intro a' h
    cases hget : get db aid with
    | none => simp [mark_as_resolved, hget] at h
    | some alert =>
      by_cases hauth : (pyTruthyInt uid && (some alert.user_id != uid)) = true
      · simp [mark_as_resolved, hget, hauth] at h
      · simp only [mark_as_resolved, hget, hauth, Bool.false_eq_true, if_false] at h
        injection h with h1
        rw [← h1]
  · intro a' h
    cases hget : get db aid with
    | none => simp [dismiss, hget] at h
    | some alert =>
      by_cases hauth : (pyTruthyInt uid && (some alert.user_id != uid)) = true
      · simp [dismiss, hget, hauth] at h
      · simp only [dismiss, hget, hauth, Bool.false_eq_true, if_false] at h
        injection h with h1
        rw [← h1]

/-- A sample RESOLVED alert owned by user 7. -/
def resolvedAlert : Alert :=
  { id := 1
    user_id := 7
    alert_type := .large_transaction
    severity := ("warning")
    entity_type := none
    entity_id := none
    amount := none
    threshold := none
    is_actionable := true
    expires_at := none
    status := .resolved
    is_read := true
    created_at := 10
    acknowledged_at := none
    resolved_at := some 10 }

/-- C3 (counterexample): `dismiss` applied by the owner to a RESOLVED
alert changes its status to DISMISSED — the operation writes the status
unconditionally, so the RESOLVED state is not terminal under `dismiss`. -/
theorem dismiss_overwrites_resolved :
    [resolvedAlert].map Alert.status = [.resolved]
    ∧ (dismiss [resolvedAlert] 1 (some 7)).2.map Alert.status = [.dismissed]
    ∧ AlertStatus.dismissed ≠ AlertStatus.resolved :=
  ⟨rfl, rfl, by decide⟩

/-- C3 (witness): the terminal-status behaviour on a one-row database. -/
theorem terminal_status_behaviour_witness :
    ((mark_as_read [resolvedAlert] 1 (some 7) 50).2.map Alert.status
      = [resolvedAlert].map Alert.status)
    ∧ (∀ p ∈ [resolvedAlert].zip (cleanup_expired [resolvedAlert] (some 7) 1000 50).2,
        p.1.status ≠ .active → p.2.status = p.1.status)
    ∧ (∀ p ∈ [resolvedAlert].zip (cleanup_old_alerts [resolvedAlert] 7 30 50).2,
        p.1.status ≠ .active → p.2.status = p.1.status)
    ∧ (∀ a', (mark_as_resolved [resolvedAlert] 1 (some 7) 50).1 = some a'
        → a'.status = .resolved)
    ∧ (∀ a', (dismiss [resolvedAlert] 1 (some 7)).1 = some a'
        → a'.status = .dismissed) :=
  terminal_status_behaviour [resolvedAlert] 1 (some 7) 7 30 1000 50 (by decide)

/-- An ACTIVE alert owned by user 1. -/
def activeAlert : Alert :=
  { id := 1
    user_id := 1
    alert_type := .low_balance
    severity := ("warning")
    entity_type := some .account
    entity_id := some 4
    amount := some 12
    threshold := some 20
    is_actionable := true
    expires_at := none
    status := .active
    is_read := false
    created_at := 10
    acknowledged_at := none
    resolved_at := none }

/-- C9 (counterexample): a caller `user_id` of `0` — different from the
owning user `1` — bypasses the ownership check (`if user_id and ...` is
falsy for `0`), so `dismiss` mutates the foreign alert and returns it
instead of returning not-found and leaving it unchanged. -/
theorem user_id_zero_bypasses_ownership :
    activeAlert.user_id ≠ 0
    ∧ (dismiss [activeAlert] 1 (some 0)).1.isSome = true
    ∧ (dismiss [activeAlert] 1 (some 0)).2.map Alert.status = [.dismissed]
    ∧ [activeAlert].map Alert.status = [.active] :=
  ⟨by decide, rfl, rfl, rfl⟩

/-- C9 (amended): for every caller `user_id` that is nonzero and different
from the alert's owner, `mark_as_read`, `mark_as_resolved` and `dismiss`
return not-found and leave the database unchanged.  (A caller `user_id` of
`0` or `None` bypasses the ownership test: Python truthiness.) -/
theorem no_cross_user_mutation (db : List Alert) (aid v : ℤ) (now : ℚ)
    (alert : Alert) (hv : v ≠ 0) (hget : get db aid = some alert)
    (howner : alert.user_id ≠ v) :
    mark_as_read db aid (some v) now = (none, db)
    ∧ mark_as_resolved db aid (some v) now = (none, db)
    ∧ dismiss db aid (some v) = (none, db) := by
  have hcond : (pyTruthyInt (some v) && (some alert.user_id != some v)) = true := by
    simp [pyTruthyInt, hv, howner]
  refine ⟨?_, ?_, ?_⟩
  · simp only [mark_as_read, hget, hcond, if_true]
  · simp only [mark_as_resolved, hget, hcond, if_true]
  · simp only [dismiss, hget, hcond, if_true]

/-- C9 (witness): user 2 cannot touch user 1's alert. -/
theorem no_cross_user_mutation_witness :
    mark_as_read [activeAlert] 1 (some 2) 50 = (none, [activeAlert])
    ∧ mark_as_resolved [activeAlert] 1 (some 2) 50 = (none, [activeAlert])
    ∧ dismiss [activeAlert] 1 (some 2) = (none, [activeAlert]) :=
  no_cross_user_mutation [activeAlert] 1 2 50 activeAlert (by decide) (by rfl)
    (by decide)

end Banking.Alerts

namespace Banking.Alerts
/-
Embedding of `services/alert_service.py` (`AlertService`): the eight rule
checks and the orchestration `check_and_generate_alerts`.

The rows the rules read are modelled from the service's own queries and
the spec's data model: the `app.models` package this service imports is
absent from `src/` (the sibling application's models differ — e.g. its
`TransactionType` has no INCOME/EXPENSE members and its `Bill` has no
`is_active` — an inconsistency the spec flags).  Fields only used to
format titles/messages or JSON payloads (`description`,
`recurrence_frequency`, account and bill names, `is_autopay`) are not
modelled.

Each check is split into (a) a pure draft computation from the snapshot —
the query, trigger condition, severity and `create_user_alert` keyword
values, none of which read the alerts table — and (b) the shared loop
`run_drafts`, which per draft runs the `get_by_criteria` dedup lookup
(when the rule has one) and persists via `create_user_alert`.  This is
exactly the per-entity loop of each `_check_*` method: the dedup query of
one iteration depends only on snapshot values, never on alerts created by
earlier iterations' state other than through `get_by_criteria` itself.
-/

/-- Transaction-type vocabulary used by the alert rules.  Modelled from
the spec: the rules compare against INCOME and EXPENSE; `other` stands
for the remaining members of the (absent) enum. -/
inductive TransactionType where
  | income
  | expense
  | other
deriving DecidableEq

/-- A row of the `transactions` table (fields the rules read). -/
structure Transaction where
  id : ℤ
  user_id : ℤ
  date : ℚ
  amount : ℚ
  status : String
  transaction_type : TransactionType
  category : Option String
  is_recurring : Bool
  recurrence_end_date : Option ℤ
  recurrence_next_date : Option ℤ

/-- A row of the `accounts` table. -/
structure Account where
  id : ℤ
  user_id : ℤ
  is_active : Bool
  account_type : String
  balance : ℚ
  credit_limit : Option ℚ

/-- A row of the `budgets` table. -/
structure Budget where
  id : ℤ
  user_id : ℤ
  month : ℤ
  year : ℤ
  category : String
  amount : ℚ
  start_date : ℚ
  end_date : ℚ

/-- A row of the `bills` table (fields `_check_bills_due` reads). -/
structure BillRow where
  id : ℤ
  user_id : ℤ
  is_active : Bool
  due_date : ℤ
  amount : ℚ

/-- The read-only data snapshot one orchestration pass works on:
`datetime.now()` with its calendar decomposition, and the user's
transactions, accounts, budgets and bills.  The rules never write these
tables — they only create alerts. -/
structure Snapshot where
  user_id : ℤ
  now : ℚ
  nowMonth : ℤ
  nowYear : ℤ
  monthStart : ℚ
  transactions : List Transaction
  accounts : List Account
  budgets : List Budget
  bills : List BillRow

/-- The mutable alert-table state: rows plus the autoincrement counter. -/
structure AlertState where
  alerts : List Alert
  nextId : ℤ

/-- One pending `create_user_alert` call: the keyword values a rule
passes, plus `dedup_after` — the `created_after` bound of the rule's
`get_by_criteria` dedup lookup (`none` for the rules that have no dedup
check: subscription renewal and cash-flow warning). -/
structure Draft where
  alert_type : AlertType
  severity : String
  entity_type : Option EntityType := none
  entity_id : Option ℤ := none
  amount : Option ℚ := none
  threshold : Option ℚ := none
  is_actionable : Bool := true
  expires_at : Option ℚ := none
  dedup_after : Option ℚ := none

/-- `create_user_alert` + `create`: the persisted row (status ACTIVE,
unread, `created_at = now`, next autoincrement id). -/
def mkAlert (uid : ℤ) (now : ℚ) (id : ℤ) (d : Draft) : Alert :=
  { id := id
    user_id := uid
    alert_type := d.alert_type
    severity := d.severity
    entity_type := d.entity_type
    entity_id := d.entity_id
    amount := d.amount
    threshold := d.threshold
    is_actionable := d.is_actionable
    expires_at := d.expires_at
    status := .active
    is_read := false
    created_at := now
    acknowledged_at := none
    resolved_at := none }

/-- The `existing = get_by_criteria(...)` dedup lookup a rule performs
before creating, `none` (no suppression) for the rules without one. -/
def dedupLookup (uid : ℤ) (st : AlertState) (d : Draft) : Option Alert :=
  match d.dedup_after with
  | some ca => get_by_criteria st.alerts uid d.alert_type d.entity_type
      d.entity_id (some ca) true
  | none => none

/-- The shared per-entity loop of every `_check_*` method: for each draft,
look for an equivalent ACTIVE alert inside the rule's window (when the
rule deduplicates) and create the alert only when none exists; return the
created alerts in order. -/
def run_drafts (uid : ℤ) (now : ℚ) : List Draft → AlertState → List Alert × AlertState
  | [], st => ([], st)
  | d :: ds, st =>
    match dedupLookup uid st d with
    | some _ => run_drafts uid now ds st
    | none =>
      let a := mkAlert uid now st.nextId d
      let r := run_drafts uid now ds ⟨st.alerts ++ [a], st.nextId + 1⟩
      (a :: r.1, r.2)

/-- `_check_large_transactions`: completed transactions of the last 7 days
with `abs(amount) >= threshold`; 24h dedup per transaction. -/
def large_transaction_drafts (ctx : Snapshot) (threshold : ℚ) : List Draft :=
  (ctx.transactions.filter fun t =>
    t.user_id == ctx.user_id && decide (ctx.now - 7 ≤ t.date)
      && decide (threshold ≤ |t.amount|) && t.status == ("completed")).map fun t =>
    { alert_type := .large_transaction
      severity := ("warning")
      entity_type := some .transaction
      entity_id := some t.id
      amount := some |t.amount|
      threshold := some threshold
      dedup_after := some (ctx.now - 1) }

/-- `_check_low_balances`: active non-credit-card accounts with a truthy
positive `credit_limit` and `balance/credit_limit <= 20%`; 24h dedup per
account, expires in 7 days. -/
def low_balance_drafts (ctx : Snapshot) (threshold_percentage : ℚ) : List Draft :=
  (ctx.accounts.filter fun acct =>
    acct.user_id == ctx.user_id && acct.is_active).filterMap fun acct =>
    if acct.account_type == ("CREDIT_CARD") then none
    else
      match acct.credit_limit with
      | none => none
      | some cl =>
        if pyTruthyQ (some cl) && decide (0 < cl) then
          if acct.balance / cl * 100 ≤ threshold_percentage then
            some { alert_type := .low_balance
                   severity := ("warning")
                   entity_type := some .account
                   entity_id := some acct.id
                   amount := some acct.balance
                   threshold := some threshold_percentage
                   expires_at := some (ctx.now + 7)
                   dedup_after := some (ctx.now - 1) }
          else none
        else none

/-- `_check_budget_exceeded`: current-month budgets with completed expense
spending inside the budget period; `>= 100%` utilization is critical
BUDGET_EXCEEDED, `>= 90%` is warning BUDGET_NEARING_LIMIT; 24h dedup per
budget. -/
def budget_drafts (ctx : Snapshot) (threshold_percentage : ℚ) : List Draft :=
  (ctx.budgets.filter fun b =>
    b.user_id == ctx.user_id && b.month == ctx.nowMonth
      && b.year == ctx.nowYear).filterMap fun b =>
    let actual_spending : ℚ :=
      ((ctx.transactions.filter fun t =>
        t.user_id == ctx.user_id && t.category == some b.category
          && t.transaction_type == TransactionType.expense
          && decide (b.start_date ≤ t.date) && decide (t.date ≤ b.end_date)
          && t.status == ("completed")).map fun t => |t.amount|).sum
    let utilization : ℚ := if 0 < b.amount then actual_spending / b.amount * 100 else 0
    if 100 ≤ utilization then
      some { alert_type := .budget_exceeded
             severity := ("critical")
             entity_type := some .budget
             entity_id := some b.id
             amount := some actual_spending
             threshold := some b.amount
             is_actionable := true
             dedup_after := some (ctx.now - 1) }
    else if threshold_percentage ≤ utilization then
      some { alert_type := .budget_nearing_limit
             severity := ("warning")
             entity_type := some .budget
             entity_id := some b.id
             amount := some actual_spending
             threshold := some b.amount
             is_actionable := true
             dedup_after := some (ctx.now - 1) }
    else none

/-- `expense.category or "Uncategorized"`. -/
def catOf (t : Transaction) : String := t.category.getD ("Uncategorized")

/-- Distinct values in first-occurrence order: the key order of the
`categories` dict built by `_check_unusual_spending`. -/
def dedupFirst : List String → List String
  | [] => []
  | c :: cs => c :: dedupFirst (cs.filter fun x => x != c)
termination_by l => l.length
decreasing_by
  simp only [List.length_cons]
  exact Nat.lt_succ_of_le (List.length_filter_le _ _)

/-- The trigger test of `_check_unusual_spending`
(`stdev > 0 and amount > mean + threshold * stdev`), stated on the sample
variance to stay inside `ℚ`: over the reals, for the positive `threshold`
(2.5) the source uses, it is equivalent to `variance > 0 ∧
amount - mean > 0 ∧ (amount - mean)² > threshold² · variance`, both sides
of the final comparison being positive. -/
def unusualCond (threshold amount mean variance : ℚ) : Bool :=
  decide (0 < variance) && decide (0 < amount - mean)
    && decide (threshold^2 * variance < (amount - mean)^2)

/-- `_check_unusual_spending`: at least 10 completed expenses in the last
30 days; per category with at least 5 samples, flag expenses more than 2.5
sample standard deviations above the category mean; 48h dedup per
transaction. -/
def unusual_spending_drafts (ctx : Snapshot) (threshold : ℚ) : List Draft :=
  let expenses := ctx.transactions.filter fun t =>
    t.user_id == ctx.user_id && t.transaction_type == TransactionType.expense
      && decide (ctx.now - 30 ≤ t.date) && t.status == ("completed")
  if expenses.length < 10 then []
  else
    (dedupFirst (expenses.map catOf)).flatMap fun c =>
      let amounts := (expenses.filter fun t => catOf t == c).map fun t => |t.amount|
      if amounts.length < 5 then []
      else
        let mean := amounts.sum / (amounts.length : ℚ)
        let variance : ℚ :=
          if 1 < amounts.length then
            ((amounts.map fun x => (x - mean)^2).sum) / ((amounts.length : ℚ) - 1)
          else 0
        (expenses.filter fun t => catOf t == c).filterMap fun t =>
          if unusualCond threshold |t.amount| mean variance then
            some { alert_type := .unusual_spending
                   severity := ("warning")
                   entity_type := some .transaction
                   entity_id := some t.id
                   amount := some |t.amount|
                   threshold := some mean
                   is_actionable := true
                   dedup_after := some (ctx.now - 2) }
          else none

/-- End of day of a due date: `datetime.combine(due_date, max.time())`,
embedded as the start of the following day. -/
def endOfDay (d : ℤ) : ℚ := (d : ℚ) + 1

/-- `_check_bills_due`: active bills due between today and `days_ahead`
days from now; severity critical today, warning tomorrow, info later; 24h
dedup per bill; the alert expires at the due date's end of day. -/
def bills_due_drafts (ctx : Snapshot) (days_ahead : ℤ) : List Draft :=
  let today := pyDate ctx.now
  (ctx.bills.filter fun b =>
    b.user_id == ctx.user_id && b.is_active && decide (today ≤ b.due_date)
      && decide (b.due_date ≤ today + days_ahead)).map fun b =>
    let days_until_due := b.due_date - today
    { alert_type := .bill_due
      severity := if days_until_due == 0 then ("critical")
        else if days_until_due == 1 then ("warning") else ("info")
      entity_type := some .bill
      entity_id := some b.id
      amount := some b.amount
      is_actionable := true
      expires_at := some (endOfDay b.due_date)
      dedup_after := some (ctx.now - 1) }

/-- `_check_subscription_renewals`: recurring transactions whose
`recurrence_end_date` has not passed and whose `recurrence_next_date`
falls within the look-ahead window.  **No dedup lookup** — the method
calls `create_user_alert` unconditionally for every match. -/
def subscription_renewal_drafts (ctx : Snapshot) (days_ahead : ℤ) : List Draft :=
  let today := pyDate ctx.now
  let renewal_date := today + days_ahead
  (ctx.transactions.filter fun t =>
    t.user_id == ctx.user_id && t.is_recurring
      && (match t.recurrence_end_date with
          | some d => decide (today ≤ d)
          | none => false)
      && (match t.recurrence_next_date with
          | some d => decide (today ≤ d) && decide (d ≤ renewal_date)
          | none => false)).filterMap fun t =>
    match t.recurrence_next_date with
    | none => none
    | some nd =>
      let days_until_renewal := nd - today
      some { alert_type := .subscription_renewal
             severity := if 3 < days_until_renewal then ("info") else ("warning")
             entity_type := some .transaction
             entity_id := some t.id
             amount := some |t.amount|
             is_actionable := true
             dedup_after := none }

/-- `_check_savings_goals`: not implemented in the source — always no
drafts. -/
def savings_goal_drafts (_ctx : Snapshot) : List Draft := []

/-- `_check_cash_flow_warnings`: month-to-date completed income and
(absolute) expenses; spending above `1.2 × income` is a warning, projected
month-end spending above `1.5 × income` is critical.  **No dedup lookup**
and no entity — both alerts are created unconditionally whenever their
conditions hold. -/
def cash_flow_drafts (ctx : Snapshot) : List Draft :=
  let income : ℚ :=
    ((ctx.transactions.filter fun t =>
      t.user_id == ctx.user_id && t.transaction_type == TransactionType.income
        && decide (ctx.monthStart ≤ t.date) && decide (t.date ≤ ctx.now)
        && t.status == ("completed")).map fun t => t.amount).sum
  let expenses : ℚ :=
    ((ctx.transactions.filter fun t =>
      t.user_id == ctx.user_id && t.transaction_type == TransactionType.expense
        && decide (ctx.monthStart ≤ t.date) && decide (t.date ≤ ctx.now)
        && t.status == ("completed")).map fun t => |t.amount|).sum
  let days_passed : ℤ := ⌊ctx.now - ctx.monthStart⌋ + 1
  let avg_daily_expenses : ℚ := if 0 < days_passed then expenses / (days_passed : ℚ) else 0
  let projected_expenses : ℚ := avg_daily_expenses * 30
  if 0 < income ∧ 0 < expenses then
    (if income * (12/10) < expenses then
      [{ alert_type := .cash_flow_warning
         severity := ("warning")
         amount := some expenses
         threshold := some income
         is_actionable := true
         dedup_after := none }]
     else [])
    ++ (if income * (15/10) < projected_expenses then
      [{ alert_type := .cash_flow_warning
         severity := ("critical")
         amount := some projected_expenses
         threshold := some income
         is_actionable := true
         dedup_after := none }]
     else [])
  else []

/-- The eight rule evaluations of `check_and_generate_alerts`, as their
draft lists, in source order and with the source's default parameters. -/
def pass_draft_lists (ctx : Snapshot) : List (List Draft) :=
  [large_transaction_drafts ctx 1000,
   low_balance_drafts ctx 20,
   budget_drafts ctx 90,
   unusual_spending_drafts ctx (5/2),
   bills_due_drafts ctx 3,
   subscription_renewal_drafts ctx 7,
   savings_goal_drafts ctx,
   cash_flow_drafts ctx]

/-- Run a sequence of checks in order, threading the alert table and
extending the `generated_alerts` list. -/
def run_checks (uid : ℤ) (now : ℚ) :
    List (List Draft) → AlertState → List Alert × AlertState
  | [], st => ([], st)
  | ds :: rest, st =>
    let r := run_drafts uid now ds st
    let r2 := run_checks uid now rest r.2
    (r.1 ++ r2.1, r2.2)

/-- `AlertService.check_and_generate_alerts`: run the eight checks in
source order, threading the alert table, and return all alerts created in
this pass. -/
def check_and_generate_alerts (ctx : Snapshot) (st : AlertState) :
    List Alert × AlertState :=
  run_checks ctx.user_id ctx.now (pass_draft_lists ctx) st

end Banking.Alerts

namespace Banking.Alerts

theorem run_drafts_alerts (uid : ℤ) (now : ℚ) (ds : List Draft) :
    ∀ st : AlertState,
      (run_drafts uid now ds st).2.alerts
        = st.alerts ++ (run_drafts uid now ds st).1 := by
  induction ds with
  | nil => intro st; simp [run_drafts]
  | cons d ds ih =>
    intro st
    cases hm : dedupLookup uid st d with
    | some a => simp only [run_drafts, hm]; exact ih st
    | none =>
      simp only [run_drafts, hm]
      rw [ih ⟨st.alerts ++ [mkAlert uid now st.nextId d], st.nextId + 1⟩]
      simp

theorem run_drafts_types (uid : ℤ) (now : ℚ) (ds : List Draft) :
    ∀ st : AlertState, ∀ a ∈ (run_drafts uid now ds st).1,
      ∃ d ∈ ds, a.alert_type = d.alert_type := by
  induction ds with
  | nil => intro st a ha; simp [run_drafts] at ha
  | cons d ds ih =>
    intro st a ha
    cases hm : dedupLookup uid st d with
    | some x =>
      rw [run_drafts, hm] at ha
      obtain ⟨d', hd', ht⟩ := ih st a ha
      exact ⟨d', List.mem_cons_of_mem d hd', ht⟩
    | none =>
      rw [run_drafts, hm] at ha
      simp only [List.mem_cons] at ha
      cases ha with
      | inl h => exact ⟨d, List.mem_cons_self d ds, by rw [h]; rfl⟩
      | inr h =>
        obtain ⟨d', hd', ht⟩ := ih _ a h
        exact ⟨d', List.mem_cons_of_mem d hd', ht⟩


/-- The coverage invariant. -/
def Covered (alerts : List Alert) (uid : ℤ) (d : Draft) : Prop :=
  ∀ ca, d.dedup_after = some ca →
    (get_by_criteria alerts uid d.alert_type d.entity_type d.entity_id
      (some ca) true).isSome = true

theorem find?_isSome_append {α : Type} (p : α → Bool) (l m : List α)
    (h : (l.find? p).isSome = true) : ((l ++ m).find? p).isSome = true := by
  rw [List.find?_append]
  cases hl : l.find? p with
  | none => rw [hl] at h; simp at h
  | some x => simp [hl]

theorem covered_append (alerts ext : List Alert) (uid : ℤ) (d : Draft)
    (h : Covered alerts uid d) : Covered (alerts ++ ext) uid d := by
  intro ca hca
  exact find?_isSome_append _ _ _ (h ca hca)

theorem criteriaPred_mkAlert (uid : ℤ) (now : ℚ) (id : ℤ) (d : Draft)
    (ca : ℚ) (hca : ca ≤ now) :
    criteriaPred uid d.alert_type d.entity_type d.entity_id (some ca) true
      (mkAlert uid now id d) = true := by
  cases het : d.entity_type <;> cases heid : pyTruthyInt d.entity_id <;>
    simp [criteriaPred, mkAlert, hca, het, heid]

theorem covered_of_created (st : AlertState) (uid : ℤ) (now : ℚ) (d : Draft)
    (hca : ∀ ca, d.dedup_after = some ca → ca ≤ now) :
    Covered (st.alerts ++ [mkAlert uid now st.nextId d]) uid d := by
  intro ca hd
  rw [get_by_criteria, List.find?_isSome]
  exact ⟨mkAlert uid now st.nextId d, by simp,
    criteriaPred_mkAlert uid now st.nextId d ca (hca ca hd)⟩

theorem run_drafts_covers (uid : ℤ) (now : ℚ) (ds : List Draft) :
    ∀ st : AlertState, ∀ d ∈ ds,
      (∀ ca, d.dedup_after = some ca → ca ≤ now) →
      Covered (run_drafts uid now ds st).2.alerts uid d := by
  induction ds with
  | nil => intro st d hd; simp at hd
  | cons d0 ds ih =>
    intro st d hd hwin
    cases hm : dedupLookup uid st d0 with
    | some x =>
      rw [run_drafts, hm]
      simp only [List.mem_cons] at hd
      cases hd with
      | inl h =>
        subst h
        have hst : Covered st.alerts uid d := by
          intro ca hca
          simp only [dedupLookup, hca] at hm
          rw [hm]
          rfl
        have := run_drafts_alerts uid now ds st
        rw [this]
        exact covered_append _ _ _ _ hst
      | inr h => exact ih st d h hwin
    | none =>
      rw [run_drafts, hm]
      simp only [List.mem_cons] at hd
      cases hd with
      | inl h =>
        subst h
        have hst1 : Covered (st.alerts ++ [mkAlert uid now st.nextId d]) uid d :=
          covered_of_created st uid now d hwin
        have := run_drafts_alerts uid now ds
          ⟨st.alerts ++ [mkAlert uid now st.nextId d], st.nextId + 1⟩
        rw [this]
        exact covered_append _ _ _ _ hst1
      | inr h => exact ih _ d h hwin

theorem run_drafts_noop (uid : ℤ) (now : ℚ) (ds : List Draft) :
    ∀ st : AlertState,
      (∀ d ∈ ds, ∃ ca, d.dedup_after = some ca ∧ Covered st.alerts uid d) →
      run_drafts uid now ds st = ([], st) := by
  induction ds with
  | nil => intro st _; rfl
  | cons d ds ih =>
    intro st h
    obtain ⟨ca, hd, hcov⟩ := h d (List.mem_cons_self d ds)
    have hsome := hcov ca hd
    rw [Option.isSome_iff_exists] at hsome
    obtain ⟨x, hx⟩ := hsome
    have hm : dedupLookup uid st d = some x := by
      rw [dedupLookup, hd]
      exact hx
    rw [run_drafts, hm]
    exact ih st (fun d' hd' => h d' (List.mem_cons_of_mem d hd'))


theorem large_drafts_shape (ctx : Snapshot) (th : ℚ) :
    ∀ d ∈ large_transaction_drafts ctx th,
      d.alert_type = .large_transaction ∧ d.dedup_after = some (ctx.now - 1) := by
  intro d hd
  obtain ⟨t, _, rfl⟩ := List.mem_map.mp hd
  exact ⟨rfl, rfl⟩

theorem low_drafts_shape (ctx : Snapshot) (th : ℚ) :
    ∀ d ∈ low_balance_drafts ctx th,
      d.alert_type = .low_balance ∧ d.dedup_after = some (ctx.now - 1) := by
  intro d hd
  obtain ⟨acct, _, hf⟩ := List.mem_filterMap.mp hd
  split at hf
  · exact Option.noConfusion hf
  · split at hf
    · exact Option.noConfusion hf
    · split at hf
      · split at hf
        · injection hf with h
          rw [← h]
          exact ⟨rfl, rfl⟩
        · exact Option.noConfusion hf
      · exact Option.noConfusion hf

theorem budget_drafts_shape (ctx : Snapshot) (th : ℚ) :
    ∀ d ∈ budget_drafts ctx th,
      (d.alert_type = .budget_exceeded ∨ d.alert_type = .budget_nearing_limit)
      ∧ d.dedup_after = some (ctx.now - 1) := by
  intro d hd
  obtain ⟨b, _, hf⟩ := List.mem_filterMap.mp hd
  dsimp only [] at hf
  repeat' split at hf
  all_goals try exact Option.noConfusion hf
  all_goals injection hf with h
  all_goals rw [← h]
  all_goals first
    | exact ⟨Or.inl rfl, rfl⟩
    | exact ⟨Or.inr rfl, rfl⟩


theorem unusual_drafts_shape (ctx : Snapshot) (th : ℚ) :
    ∀ d ∈ unusual_spending_drafts ctx th,
      d.alert_type = .unusual_spending ∧ d.dedup_after = some (ctx.now - 2) := by
  intro d hd
  rw [unusual_spending_drafts] at hd
  split at hd
  · exact absurd hd (List.not_mem_nil d)
  · obtain ⟨c, _, hin⟩ := List.mem_flatMap.mp hd
    dsimp only [] at hin
    split at hin
    · exact absurd hin (List.not_mem_nil d)
    · obtain ⟨t, _, hf⟩ := List.mem_filterMap.mp hin
      repeat' split at hf
      all_goals try exact Option.noConfusion hf
      all_goals simp only [Option.some.injEq] at hf
      all_goals rw [← hf]
      all_goals exact ⟨rfl, rfl⟩

theorem bills_drafts_shape (ctx : Snapshot) (da : ℤ) :
    ∀ d ∈ bills_due_drafts ctx da,
      d.alert_type = .bill_due ∧ d.dedup_after = some (ctx.now - 1) := by
  intro d hd
  obtain ⟨b, _, rfl⟩ := List.mem_map.mp hd
  exact ⟨rfl, rfl⟩

theorem subscription_drafts_shape (ctx : Snapshot) (da : ℤ) :
    ∀ d ∈ subscription_renewal_drafts ctx da,
      d.alert_type = .subscription_renewal ∧ d.dedup_after = none := by
  intro d hd
  obtain ⟨t, _, hf⟩ := List.mem_filterMap.mp hd
  split at hf
  · exact Option.noConfusion hf
  · injection hf with h
    rw [← h]
    exact ⟨rfl, rfl⟩

theorem cash_drafts_shape (ctx : Snapshot) :
    ∀ d ∈ cash_flow_drafts ctx,
      d.alert_type = .cash_flow_warning ∧ d.dedup_after = none := by
  intro d hd
  rw [cash_flow_drafts] at hd
  repeat' split at hd
  all_goals simp only [List.mem_append, List.mem_singleton, List.not_mem_nil,
    or_false, false_or] at hd
  all_goals first
    | (cases hd with
       | inl h => rw [h]; exact ⟨rfl, rfl⟩
       | inr h => rw [h]; exact ⟨rfl, rfl⟩)
    | (rw [hd]; exact ⟨rfl, rfl⟩)

end Banking.Alerts

namespace Banking.Alerts

theorem covered_run (uid : ℤ) (now : ℚ) (ds : List Draft) (s : AlertState)
    (d : Draft) (h : Covered s.alerts uid d) :
    Covered (run_drafts uid now ds s).2.alerts uid d := by
  rw [run_drafts_alerts]
  exact covered_append _ _ _ _ h

theorem run_checks_alerts (uid : ℤ) (now : ℚ) (dss : List (List Draft)) :
    ∀ st : AlertState,
      (run_checks uid now dss st).2.alerts
        = st.alerts ++ (run_checks uid now dss st).1 := by
  induction dss with
  | nil => intro st; simp [run_checks]
  | cons ds rest ih =>
    intro st
    simp only [run_checks]
    rw [ih, run_drafts_alerts]
    simp

theorem covered_run_checks (uid : ℤ) (now : ℚ) (dss : List (List Draft))
    (s : AlertState) (d : Draft) (h : Covered s.alerts uid d) :
    Covered (run_checks uid now dss s).2.alerts uid d := by
  rw [run_checks_alerts]
  exact covered_append _ _ _ _ h

theorem run_checks_covers (uid : ℤ) (now : ℚ) (dss : List (List Draft)) :
    ∀ st : AlertState, ∀ ds ∈ dss, ∀ d ∈ ds,
      (∀ ca, d.dedup_after = some ca → ca ≤ now) →
      Covered (run_checks uid now dss st).2.alerts uid d := by
  induction dss with
  | nil => intro st ds hds; simp at hds
  | cons ds0 rest ih =>
    intro st ds hds d hd hwin
    simp only [List.mem_cons] at hds
    cases hds with
    | inl h =>
      subst h
      simp only [run_checks]
      exact covered_run_checks uid now rest _ d
        (run_drafts_covers uid now ds st d hd hwin)
    | inr h =>
      simp only [run_checks]
      exact ih _ ds h d hd hwin

/-- A recurring subscription expense of user 1: next renewal in 2 days. -/
def c2Tx : Transaction :=
  { id := 1
    user_id := 1
    date := 95
    amount := -5
    status := ("completed")
    transaction_type := .expense
    category := some ("subs")
    is_recurring := true
    recurrence_end_date := some 120
    recurrence_next_date := some 102 }

/-- Snapshot: only the subscription transaction, everything else empty. -/
def ctxC2 : Snapshot :=
  { user_id := 1
    now := 100
    nowMonth := 4
    nowYear := 2025
    monthStart := 91
    transactions := [c2Tx]
    accounts := []
    budgets := []
    bills := [] }

/-- The draft the subscription check produces for `c2Tx` on every pass. -/
def c2Draft : Draft :=
  { alert_type := .subscription_renewal
    severity := ("warning")
    entity_type := some .transaction
    entity_id := some 1
    amount := some 5
    is_actionable := true
    dedup_after := none }

theorem c2_large : large_transaction_drafts ctxC2 1000 = [] := by
  norm_num [large_transaction_drafts, ctxC2, c2Tx, List.filter_cons, List.filter_nil]

theorem c2_low : low_balance_drafts ctxC2 20 = [] := by rfl

theorem c2_budget : budget_drafts ctxC2 90 = [] := by rfl

theorem c2_unusual : unusual_spending_drafts ctxC2 (5/2) = [] := by
  norm_num [unusual_spending_drafts, ctxC2, c2Tx, List.filter_cons, List.filter_nil]

theorem c2_bills : bills_due_drafts ctxC2 3 = [] := by rfl

theorem c2_sub : subscription_renewal_drafts ctxC2 7 = [c2Draft] := by
  norm_num [subscription_renewal_drafts, ctxC2, c2Tx, c2Draft, pyDate,
    List.filter_cons, List.filter_nil, List.filterMap]

theorem c2_cash : cash_flow_drafts ctxC2 = [] := by
  have h : (TransactionType.expense = TransactionType.income) = False := by simp
  norm_num [cash_flow_drafts, ctxC2, c2Tx, List.filter_cons, List.filter_nil, h]

end Banking.Alerts
namespace Banking.Alerts

theorem c2_savings : savings_goal_drafts ctxC2 = [] := rfl

theorem c2_pass1 :
    check_and_generate_alerts ctxC2 ⟨[], 1⟩
      = ([mkAlert 1 100 1 c2Draft],
         ⟨[mkAlert 1 100 1 c2Draft], 2⟩) := by
  rw [check_and_generate_alerts, pass_draft_lists,
    c2_large, c2_low, c2_budget, c2_unusual, c2_bills, c2_sub, c2_cash, c2_savings]
  have hdd : c2Draft.dedup_after = none := rfl
  simp only [run_checks, run_drafts, dedupLookup, hdd, List.nil_append,
    List.append_nil]
  norm_num [ctxC2]

theorem c2_pass2 :
    check_and_generate_alerts ctxC2 ⟨[mkAlert 1 100 1 c2Draft], 2⟩
      = ([mkAlert 1 100 2 c2Draft],
         ⟨[mkAlert 1 100 1 c2Draft, mkAlert 1 100 2 c2Draft], 3⟩) := by
  rw [check_and_generate_alerts, pass_draft_lists,
    c2_large, c2_low, c2_budget, c2_unusual, c2_bills, c2_sub, c2_cash, c2_savings]
  have hdd : c2Draft.dedup_after = none := rfl
  simp only [run_checks, run_drafts, dedupLookup, hdd, List.nil_append,
    List.append_nil]
  norm_num [ctxC2]

/-- C2 (counterexample): over unchanged data the second pass of
`check_and_generate_alerts` creates one new alert, not zero — the
subscription-renewal rule performs no dedup lookup — and afterwards two
ACTIVE alerts for the same (user, alert_type, entity_type, entity_id)
tuple exist, both created at the same instant (so inside any dedup
window). -/
theorem run_alert_checks_not_idempotent :
    (check_and_generate_alerts ctxC2
      ((check_and_generate_alerts ctxC2 ⟨[], 1⟩).2)).1.length = 1
    ∧ ((check_and_generate_alerts ctxC2
        ((check_and_generate_alerts ctxC2 ⟨[], 1⟩).2)).2.alerts.countP
          (fun al => al.user_id == 1
            && al.alert_type == AlertType.subscription_renewal
            && al.entity_type == some EntityType.transaction
            && al.entity_id == some 1
            && al.status == AlertStatus.active)) = 2
    ∧ (∀ al ∈ (check_and_generate_alerts ctxC2
        ((check_and_generate_alerts ctxC2 ⟨[], 1⟩).2)).2.alerts,
        al.created_at = ctxC2.now)
    ∧ (1:ℕ) ≠ 0 := by
  rw [c2_pass1]
  rw [show ((([mkAlert 1 100 1 c2Draft],
      (⟨[mkAlert 1 100 1 c2Draft], 2⟩ : AlertState))).2)
    = (⟨[mkAlert 1 100 1 c2Draft], 2⟩ : AlertState) from rfl]
  rw [c2_pass2]
  refine ⟨rfl, by decide, ?_, by decide⟩
  intro al hal
  simp only [List.mem_cons, List.not_mem_nil, or_false] at hal
  rcases hal with h | h
  all_goals rw [h]
  all_goals rfl


/-- C2 (amended): running the full alert pass twice in immediate
succession over unchanged user data creates, on the second pass, no new
alerts of the five deduplicated rule types — every alert the second pass
creates is a `subscription_renewal` or `cash_flow_warning`, the two rules
whose source performs no dedup lookup and re-creates on every pass. -/
theorem run_alert_checks_second_pass (ctx : Snapshot) (st : AlertState) :
    ∀ a ∈ (check_and_generate_alerts ctx ((check_and_generate_alerts ctx st).2)).1,
      a.alert_type = .subscription_renewal ∨ a.alert_type = .cash_flow_warning := by
  intro a ha
  set uid := ctx.user_id with huid
  set now := ctx.now with hnow
  set st1 := (check_and_generate_alerts ctx st).2 with hst1
  have hwin : ∀ (w : ℚ) (d : Draft), d.dedup_after = some (now - w) → 0 ≤ w →
      ∀ ca, d.dedup_after = some ca → ca ≤ now := by
    intro w d hshape hw ca hca
    rw [hshape] at hca
    injection hca with h2
    rw [← h2]
    linarith
  have hcov : ∀ ds ∈ pass_draft_lists ctx, ∀ d ∈ ds,
      (∀ ca, d.dedup_after = some ca → ca ≤ now) →
      Covered st1.alerts uid d := by
    intro ds hds d hd h
    exact run_checks_covers uid now (pass_draft_lists ctx) st ds hds d hd h
  have hn1 : run_drafts uid now (large_transaction_drafts ctx 1000) st1 = ([], st1) := by
    apply run_drafts_noop
    intro d hd
    obtain ⟨_, hded⟩ := large_drafts_shape ctx 1000 d hd
    exact ⟨now - 1, hded,
      hcov _ (by simp [pass_draft_lists]) d hd (hwin 1 d hded (by norm_num))⟩
  have hn2 : run_drafts uid now (low_balance_drafts ctx 20) st1 = ([], st1) := by
    apply run_drafts_noop
    intro d hd
    obtain ⟨_, hded⟩ := low_drafts_shape ctx 20 d hd
    exact ⟨now - 1, hded,
      hcov _ (by simp [pass_draft_lists]) d hd (hwin 1 d hded (by norm_num))⟩
  have hn3 : run_drafts uid now (budget_drafts ctx 90) st1 = ([], st1) := by
    apply run_drafts_noop
    intro d hd
    obtain ⟨_, hded⟩ := budget_drafts_shape ctx 90 d hd
    exact ⟨now - 1, hded,
      hcov _ (by simp [pass_draft_lists]) d hd (hwin 1 d hded (by norm_num))⟩
  have hn4 : run_drafts uid now (unusual_spending_drafts ctx (5/2)) st1 = ([], st1) := by
    apply run_drafts_noop
    intro d hd
    obtain ⟨_, hded⟩ := unusual_drafts_shape ctx (5/2) d hd
    exact ⟨now - 2, hded,
      hcov _ (by simp [pass_draft_lists]) d hd (hwin 2 d hded (by norm_num))⟩
  have hn5 : run_drafts uid now (bills_due_drafts ctx 3) st1 = ([], st1) := by
    apply run_drafts_noop
    intro d hd
    obtain ⟨_, hded⟩ := bills_drafts_shape ctx 3 d hd
    exact ⟨now - 1, hded,
      hcov _ (by simp [pass_draft_lists]) d hd (hwin 1 d hded (by norm_num))⟩
  simp only [check_and_generate_alerts, pass_draft_lists, run_checks] at ha
  rw [hn1] at ha
  dsimp only [] at ha
  rw [hn2] at ha
  dsimp only [] at ha
  rw [hn3] at ha
  dsimp only [] at ha
  rw [hn4] at ha
  dsimp only [] at ha
  rw [hn5] at ha
  dsimp only [] at ha
  simp only [savings_goal_drafts, run_drafts, List.nil_append, List.append_nil,
    List.mem_append] at ha
  cases ha with
  | inl h6 =>
    obtain ⟨d, hd, ht⟩ := run_drafts_types uid now _ _ a h6
    exact Or.inl (ht.trans (subscription_drafts_shape ctx 7 d hd).1)
  | inr h8 =>
    obtain ⟨d, hd, ht⟩ := run_drafts_types uid now _ _ a h8
    exact Or.inr (ht.trans (cash_drafts_shape ctx d hd).1)

/-- C2 (witness): the alert the second pass creates at the concrete
snapshot is a subscription renewal. -/
theorem run_alert_checks_second_pass_witness :
    (mkAlert 1 100 2 c2Draft).alert_type = .subscription_renewal
    ∨ (mkAlert 1 100 2 c2Draft).alert_type = .cash_flow_warning :=
  run_alert_checks_second_pass ctxC2 ⟨[], 1⟩ (mkAlert 1 100 2 c2Draft)
    (by
      rw [c2_pass1]
      rw [show ((([mkAlert 1 100 1 c2Draft],
          (⟨[mkAlert 1 100 1 c2Draft], 2⟩ : AlertState))).2)
        = (⟨[mkAlert 1 100 1 c2Draft], 2⟩ : AlertState) from rfl]
      rw [c2_pass2]
      simp)

end Banking.Alerts
